import Mathlib

/-!
Verification development for the auto_swap_bot repository.

Shallow embedding of the detection-validation-execution pipeline:
  * config.py constants,
  * TokenMonitor (auto_swap.py): per-log processing of both the polling
    scanner (scan_recent_blocks) and the websocket handler
    (monitor_loop_websocket), sharing DetectionState,
  * LiquidityChecker (auto_swap.py): check_liquidity_dexscreener and
    is_tradeable,
  * SwapExecutor.execute_swap (swap_executor.py): modelled as a pure
    function of an environment of external-call outcomes, returning the
    ordered trace of externally visible steps plus the result,
  * SpecificTokenMonitor.check_and_sell (sniper_sell.py): the liquidity
    growth gate.

External I/O (chain RPC responses, HTTP responses, handler outcomes) is
passed in as explicit data; machine floats of the source are modelled as
exact rationals.
-/

set_option maxRecDepth 8000

namespace AutoSwapBot

/-! ## Python string primitives

The source normalizes addresses with `str.lower()`, slices topics with
`[-40:]` and validates with `str.startswith`. These are modelled
character-wise so that concrete runs reduce inside the kernel. -/

/-- Python `s.lower()` on the ASCII strings handled by the bot. -/
def pyLower (s : String) : String := ⟨s.data.map Char.toLower⟩

/-- Python `s[-n:]`: the last `n` characters of `s`. -/
def pyTakeRight (s : String) (n : Nat) : String := ⟨s.data.drop (s.data.length - n)⟩

/-- Python `s.startswith(p)`. -/
def pyStartsWith (s p : String) : Bool := s.data.take p.data.length = p.data

/-! ## config.py constants -/

/-- config.py: DUPLICATE_CHECK_BLOCKS = 3 (cooldown window in blocks). -/
def DUPLICATE_CHECK_BLOCKS : Int := 3

/-- config.py: MIN_LIQUIDITY = 3000 (minimum liquidity in USD). -/
def MIN_LIQUIDITY : Rat := 3000

/-- config.py: MONITOR_INTERVAL = 10 (also used as the scan window num_blocks). -/
def MONITOR_INTERVAL : Nat := 10

/-- config.py: AGGREGATOR_PRIORITY, the configured provider priority order. -/
def AGGREGATOR_PRIORITY : List String := ["1inch", "0x", "uniswap", "okx"]

/-- sniper_sell.py: LIQUIDITY_GROWTH_THRESHOLD = 1.0. -/
def LIQUIDITY_GROWTH_THRESHOLD : Rat := 1

/-- sniper_sell.py: MIN_LIQUIDITY_USD = 1000 (sniper variant threshold). -/
def MIN_LIQUIDITY_USD : Rat := 1000

/-! ## Event Watcher (auto_swap.py, TokenMonitor) -/

/-- A chain Transfer log as the watcher sees it: emitting contract address,
topic list (topics[0] = event signature, topics[1] = from, topics[2] = to),
transaction hash, block number. -/
structure Log where
  address : String
  topics : List String
  txHash : String
  blockNumber : Nat
deriving DecidableEq

/-- TokenMonitor mutable state: known_tokens, processed_events,
token_last_block, last_block_scanned (auto_swap.py lines 256-259). -/
structure DetectionState where
  knownTokens : List String
  processedEvents : List (String × String)
  tokenLastBlock : List (String × Nat)
  lastBlockScanned : Nat
deriving DecidableEq

/-- Python dict assignment `token_last_block[token] = block` on the assoc-list
model: overwrite the existing binding or append a new one. -/
def updateLastBlock : List (String × Nat) → String → Nat → List (String × Nat)
  | [], k, v => [(k, v)]
  | (k', v') :: rest, k, v =>
      if k' = k then (k, v) :: rest else (k', v') :: updateLastBlock rest k v

/-- `'0x' + topic[-40:].lower()`: recover the 20-byte address from a 32-byte
indexed topic (auto_swap.py lines 301-302 and 444). -/
def topicToAddress (t : String) : String := "0x" ++ pyLower (pyTakeRight t 40)

/-- Cooldown test (auto_swap.py lines 309-314 and 456-460): the token is in
token_last_block and `block_number - last_block < DUPLICATE_CHECK_BLOCKS`.
Python ints are modelled with `Int` so that a lower block number also counts
as inside the cooldown, exactly as in the source. -/
def cooldownActive (cooldown : Int) (m : List (String × Nat))
    (tokenAddress : String) (blockNumber : Nat) : Bool :=
  match m.lookup tokenAddress with
  | some lastBlock => decide ((blockNumber : Int) - (lastBlock : Int) < cooldown)
  | none => false

/-- State update performed when a matched log is accepted (auto_swap.py lines
317-321 and 463-467): add to known_tokens if absent, set token_last_block,
add the `(token_address, tx_hash)` pair to processed_events. -/
def recordDetection (s : DetectionState) (tokenAddress txHash : String)
    (blockNumber : Nat) : DetectionState :=
  { s with
    knownTokens :=
      if tokenAddress ∈ s.knownTokens then s.knownTokens
      else tokenAddress :: s.knownTokens
    tokenLastBlock := updateLastBlock s.tokenLastBlock tokenAddress blockNumber
    processedEvents := (tokenAddress, txHash) :: s.processedEvents }

/-- One iteration of the polling-scan inner loop (auto_swap.py lines 285-324):
dedup check on `(address.lower(), tx_hash)` first, then the recipient-topic
match, then the cooldown check, then record the detection and emit the token.
Returns the new state and the emitted token address (lowercased; the source
re-checksums it for display, which is a case normalization only). -/
def scanProcessLog (cooldown : Int) (myAddress : String) (s : DetectionState)
    (log : Log) : DetectionState × Option String :=
  if (pyLower log.address, log.txHash) ∈ s.processedEvents then (s, none)
  else
    match log.topics with
    | _ :: _ :: topic2 :: _ =>
      if topicToAddress topic2 = myAddress then
        let tokenAddress := pyLower log.address
        if cooldownActive cooldown s.tokenLastBlock tokenAddress log.blockNumber then
          (s, none)
        else
          (recordDetection s tokenAddress log.txHash log.blockNumber, some tokenAddress)
      else (s, none)
    | _ => (s, none)

/-- One received log in websocket mode (auto_swap.py lines 441-477): the
recipient-topic match comes first, then the dedup check, then the cooldown
check, then record and emit. -/
def wsProcessLog (cooldown : Int) (myAddress : String) (s : DetectionState)
    (log : Log) : DetectionState × Option String :=
  match log.topics with
  | _ :: _ :: topic2 :: _ =>
    if pyLower (topicToAddress topic2) = pyLower myAddress then
      let tokenAddress := pyLower log.address
      if (tokenAddress, log.txHash) ∈ s.processedEvents then (s, none)
      else if cooldownActive cooldown s.tokenLastBlock tokenAddress log.blockNumber then
        (s, none)
      else
        (recordDetection s tokenAddress log.txHash log.blockNumber, some tokenAddress)
    else (s, none)
  | _ => (s, none)

/-- Start of the queried block range (auto_swap.py line 268):
`start_block = max(current_block - num_blocks, last_block_scanned + 1)`.
`Int` because the Python difference may be negative near genesis. -/
def scanStartBlock (numBlocks lastBlockScanned currentBlock : Nat) : Int :=
  max ((currentBlock : Int) - (numBlocks : Int)) ((lastBlockScanned : Int) + 1)

/-- Fold step applying `scanProcessLog` and collecting emitted tokens. -/
def scanFold (cooldown : Int) (myAddress : String)
    (acc : DetectionState × List String) (log : Log) :
    DetectionState × List String :=
  let r := scanProcessLog cooldown myAddress acc.1 log
  match r.2 with
  | some t => (r.1, acc.2 ++ [t])
  | none => (r.1, acc.2)

/-- One successful polling cycle (auto_swap.py scan_recent_blocks): process
the logs returned by the gateway for the queried range, then set
last_block_scanned to current_block regardless of whether anything matched
(line 326). The gateway response is passed in as `logs`. -/
def scan_recent_blocks (cooldown : Int) (myAddress : String)
    (s : DetectionState) (currentBlock : Nat) (logs : List Log) :
    DetectionState × List String :=
  let r := logs.foldl (scanFold cooldown myAddress) (s, [])
  ({ r.1 with lastBlockScanned := currentBlock }, r.2)

/-- One polling cycle followed by the handler invocations of
monitor_loop_polling (lines 356-361): the callback runs per emitted token
after the scan completed, each invocation wrapped so that an exception is
logged, not propagated. `handlerOk` records each invocation outcome; it
cannot influence the detection state. -/
def monitorPollingCycle (cooldown : Int) (myAddress : String)
    (s : DetectionState) (currentBlock : Nat) (logs : List Log)
    (handlerOk : String → Bool) : DetectionState × List (String × Bool) :=
  let r := scan_recent_blocks cooldown myAddress s currentBlock logs
  (r.1, r.2.map fun t => (t, handlerOk t))

/-- One websocket message handled end to end (lines 441-477): state update by
`wsProcessLog`, then, if a token was emitted, the callback in a try/except
whose outcome `handlerOk` is recorded but cannot influence the state. -/
def wsHandleLog (cooldown : Int) (myAddress : String) (s : DetectionState)
    (log : Log) (handlerOk : Bool) : DetectionState × Option (String × Bool) :=
  let r := wsProcessLog cooldown myAddress s log
  match r.2 with
  | some t => (r.1, some (t, handlerOk))
  | none => (r.1, none)

/-- Run a per-log step over a list of logs, collecting the
`(tokenAddress, txHash)` identity pair of every log that produced an
emission. Instantiated with `scanProcessLog` and `wsProcessLog`. -/
def runPairs (step : DetectionState → Log → DetectionState × Option String) :
    DetectionState → List Log → DetectionState × List (String × String)
  | s, [] => (s, [])
  | s, log :: rest =>
    let r := step s log
    let rr := runPairs step r.1 rest
    match r.2 with
    | some _ => (rr.1, (pyLower log.address, log.txHash) :: rr.2)
    | none => rr

/-! ## Liquidity checker (auto_swap.py, LiquidityChecker) -/

/-- One trading pair as parsed from the DexScreener response: the source reads
`float(pair.get('liquidity', {}).get('usd', 0))` and `float(pair.get('priceUsd', 0))`,
modelled as exact rationals, plus pairAddress and dexId. -/
structure Pair where
  liquidityUsd : Rat
  priceUsd : Rat
  pairAddress : String
  dexId : String
deriving DecidableEq

/-- The snapshot returned by the liquidity check. The failure paths of the
source return only the first two fields; the remaining fields are `none`
there and populated on success. -/
structure LiquiditySnapshot where
  has_liquidity : Bool
  liquidity_usd : Rat
  best_pair : Option String
  dex : Option String
  price_usd : Option Rat
deriving DecidableEq

/-- `{'has_liquidity': False, 'liquidity_usd': 0}` (auto_swap.py lines 531,
536, 546, 562). -/
def zeroSnapshot : LiquiditySnapshot :=
  { has_liquidity := false, liquidity_usd := 0
    best_pair := none, dex := none, price_usd := none }

/-- Python `max(pairs, key=...)` over a nonempty list: keep the current best
and replace it only on a strictly larger key, so the earliest maximal
element wins, exactly as in CPython. -/
def maxByLiquidity (p : Pair) (ps : List Pair) : Pair :=
  ps.foldl (fun best x => if best.liquidityUsd < x.liquidityUsd then x else best) p

/-- LiquidityChecker.check_liquidity_dexscreener (auto_swap.py lines 525-562).
The HTTP exchange is passed in as `response`: `none` models a timeout or any
raised exception, `some (status, pairs)` a reply with that status code and
parsed pair list. The returned Bool records whether the network call was
made (the degenerate-input branches return before any request). -/
def check_liquidity_dexscreener (tokenAddress : String)
    (response : Option (Nat × List Pair)) : Bool × LiquiditySnapshot :=
  if pyLower tokenAddress = "0x0000000000000000000000000000000000000000" then
    (false, zeroSnapshot)
  else if ¬ pyStartsWith tokenAddress "0x" ∨ tokenAddress.length ≠ 42 then
    (false, zeroSnapshot)
  else
    (true,
      match response with
      | none => zeroSnapshot
      | some (status, pairs) =>
        if status = 200 then
          match pairs with
          | [] => zeroSnapshot
          | p :: ps =>
            let best := maxByLiquidity p ps
            { has_liquidity := decide (0 < best.liquidityUsd)
              liquidity_usd := best.liquidityUsd
              best_pair := some best.pairAddress
              dex := some best.dexId
              price_usd := some best.priceUsd }
        else zeroSnapshot)

/-- LiquidityChecker.is_tradeable (auto_swap.py lines 574-579):
`has_liquidity and liquidity_usd >= min_liquidity_usd`. -/
def is_tradeable (minLiquidityUsd : Rat) (info : LiquiditySnapshot) : Bool :=
  info.has_liquidity && decide (minLiquidityUsd ≤ info.liquidity_usd)

/-! ## Swap executor (swap_executor.py, SwapExecutor.execute_swap) -/

/-- Externally visible steps of one execute_swap run, in order of occurrence.
quote and swap-data requests carry the provider they are addressed to. -/
inductive SwapStep where
  | quoteRequest (provider : String)
  | swapDataRequest (provider : String)
  | allowanceCheck (token spender : String)
  | approveSubmit (token spender : String) (amount : Int)
  | signSwapTx
  | submitSwapTx
deriving DecidableEq

/-- The fields of the 0x swap-data response that execute_swap consumes. -/
structure SwapData where
  allowanceTarget : String
  txTo : String
deriving DecidableEq

/-- Outcomes of the external calls made during one execute_swap run, passed
in as data: the 0x quote (`none` on any non-200 or error, per get_0x_quote),
the 0x swap payload (same contract, per get_0x_swap_tx), the current
allowance read (check_allowance returns 0 on its own failure), the result of
approve_token (`none` when the approval could not be sent or confirmed),
whether send_raw_transaction succeeded, the returned transaction hash, and
the receipt status (`none` when waiting for the receipt raised). -/
structure SwapEnv where
  quote : Option Int
  swapData : Option SwapData
  allowance : Int
  approveResult : Option String
  sendOk : Bool
  txHash : String
  receiptStatus : Option Int
deriving DecidableEq

/-- SwapExecutor.execute_swap (swap_executor.py lines 209-297): quote via 0x,
swap data via 0x, allowance check against the payload allowanceTarget,
approval of `amount_in * 2` when allowance < amount_in (its result is not
inspected by the caller, mirroring line 250), then sign, submit and wait for
the receipt. Returns the ordered step trace and the result
(`some txHash` on a status-1 receipt, otherwise `none`). -/
def execute_swap (env : SwapEnv) (token_in token_out : String)
    (amount_in : Int) : List SwapStep × Option String :=
  match env.quote with
  | none => ([SwapStep.quoteRequest "0x"], none)
  | some _ =>
    match env.swapData with
    | none => ([SwapStep.quoteRequest "0x", SwapStep.swapDataRequest "0x"], none)
    | some sd =>
      let approveSteps :=
        if env.allowance < amount_in then
          [SwapStep.approveSubmit token_in sd.allowanceTarget (amount_in * 2)]
        else []
      let steps :=
        [SwapStep.quoteRequest "0x", SwapStep.swapDataRequest "0x",
         SwapStep.allowanceCheck token_in sd.allowanceTarget]
        ++ approveSteps ++ [SwapStep.signSwapTx, SwapStep.submitSwapTx]
      if env.sendOk then
        match env.receiptStatus with
        | some st => if st = 1 then (steps, some env.txHash) else (steps, none)
        | none => (steps, none)
      else (steps, none)

/-! ## Sniper variant (sniper_sell.py, SpecificTokenMonitor.check_and_sell) -/

/-- Liquidity-tracking state of SpecificTokenMonitor (sniper_sell.py lines
390-397). -/
structure SniperState where
  has_liquidity_detected : Bool
  initial_liquidity : Rat
  current_liquidity : Rat
  max_liquidity_seen : Rat
  liquidity_check_count : Nat
deriving DecidableEq

/-- Outcome of one check_and_sell gating pass (sniper_sell.py lines 422-502):
either an early return, or `sell growthRatio`, meaning control reaches the
sell section that invokes the swap (the block from line 504 on). -/
inductive CheckOutcome where
  | noBalance
  | notTradeable
  | waitForGrowth
  | growthPending
  | sell (growthRatio : Rat)
deriving DecidableEq

/-- SpecificTokenMonitor.check_and_sell gating logic (sniper_sell.py lines
422-502): zero balance and non-tradeable liquidity return early; the first
tradeable check records the liquidity as initial_liquidity and proceeds to
sell immediately unless the growth threshold exceeds 1.0; every later check
computes `growth_ratio = current / initial` (0 when initial is not positive)
and proceeds to sell exactly when the ratio reached the threshold. -/
def check_and_sell (minLiquidityUsd growthThreshold : Rat) (st : SniperState)
    (balance : Rat) (liq : LiquiditySnapshot) : SniperState × CheckOutcome :=
  if balance ≤ 0 then (st, CheckOutcome.noBalance)
  else if ¬ is_tradeable minLiquidityUsd liq then (st, CheckOutcome.notTradeable)
  else
    let cur := liq.liquidity_usd
    if ¬ st.has_liquidity_detected then
      let st' : SniperState :=
        { has_liquidity_detected := true, initial_liquidity := cur
          current_liquidity := cur, max_liquidity_seen := cur
          liquidity_check_count := 1 }
      if 1 < growthThreshold then (st', CheckOutcome.waitForGrowth)
      else (st', CheckOutcome.sell 1)
    else
      let st' : SniperState :=
        { st with
          liquidity_check_count := st.liquidity_check_count + 1
          current_liquidity := cur
          max_liquidity_seen := max st.max_liquidity_seen cur }
      let ratio := if 0 < st.initial_liquidity then cur / st.initial_liquidity else 0
      if ratio < growthThreshold then (st', CheckOutcome.growthPending)
      else (st', CheckOutcome.sell ratio)

/-! ## Concrete data used by witnesses -/

/-- A monitored wallet address, in the lowercased form the source compares. -/
def my0 : String := "0xaabbccddeeff00112233445566778899aabbccdd"

/-- The Transfer event signature topic. -/
def sig0 : String := "0xddf252ad1be2c89b69c2b068fc378daa952ba7f163c4a11628f55a4df523b3ef"

/-- topics[2] carrying `my0` as the 32-byte padded recipient. -/
def topicTo0 : String :=
  "0x000000000000000000000000aabbccddeeff00112233445566778899aabbccdd"

/-- topics[1], an arbitrary sender. -/
def topicFrom0 : String :=
  "0x0000000000000000000000000000000000000000000000000000000000000001"

/-- Fresh watcher state (auto_swap.py lines 256-259 initial values). -/
def state0 : DetectionState := ⟨[], [], [], 0⟩

/-- An incoming transfer of token 0xdead...beef to `my0` at block 100. -/
def log0 : Log :=
  { address := "0xDEAD00000000000000000000000000000000bEEf"
    topics := [sig0, topicFrom0, topicTo0]
    txHash := "0xhash1", blockNumber := 100 }

/-- Token address of the cooldown scenario. -/
def tokA : String := "0xaaaaaaaaaaaaaaaaaaaaaaaaaaaaaaaaaaaaaaaa"

/-- topics[2] for a transfer of `tokA` to `my0` is still `topicTo0`; the state
after `tokA` was first received and processed at block 100. -/
def sCool : DetectionState :=
  ⟨[tokA], [(tokA, "0xhash0")], [(tokA, 100)], 100⟩

/-- A fresh transfer of `tokA` at block 101 (new transaction hash). -/
def logCool101 : Log :=
  { address := tokA, topics := [sig0, topicFrom0, topicTo0]
    txHash := "0xhash2", blockNumber := 101 }

/-- A fresh transfer of `tokA` at block 104 = 100 + cooldown + 1. -/
def logCool104 : Log :=
  { address := tokA, topics := [sig0, topicFrom0, topicTo0]
    txHash := "0xhash3", blockNumber := 104 }

/-- A redelivery of the exact log already processed for `tokA` at block 100. -/
def logReplay0 : Log :=
  { address := tokA, topics := [sig0, topicFrom0, topicTo0]
    txHash := "0xhash0", blockNumber := 100 }

/-! ## Watcher step lemmas -/

theorem scanProcessLog_none_of_mem (cooldown : Int) (my : String)
    (s : DetectionState) (log : Log)
    (h : (pyLower log.address, log.txHash) ∈ s.processedEvents) :
    scanProcessLog cooldown my s log = (s, none) := by
  unfold scanProcessLog
  rw [if_pos h]

theorem wsProcessLog_none_of_mem (cooldown : Int) (my : String)
    (s : DetectionState) (log : Log)
    (h : (pyLower log.address, log.txHash) ∈ s.processedEvents) :
    (wsProcessLog cooldown my s log).2 = none := by
  unfold wsProcessLog
  rcases htop : log.topics with _ | ⟨t0, _ | ⟨t1, _ | ⟨t2, rest⟩⟩⟩ <;> simp [htop]
  by_cases hto : pyLower (topicToAddress t2) = pyLower my
  · simp [hto, h]
  · simp [hto]

theorem scanProcessLog_emit_inv (cooldown : Int) (my : String)
    (s : DetectionState) (log : Log) (t : String)
    (h : (scanProcessLog cooldown my s log).2 = some t) :
    t = pyLower log.address
    ∧ (pyLower log.address, log.txHash) ∉ s.processedEvents
    ∧ (scanProcessLog cooldown my s log).1
        = recordDetection s (pyLower log.address) log.txHash log.blockNumber := by
  unfold scanProcessLog at h ⊢
  by_cases hmem : (pyLower log.address, log.txHash) ∈ s.processedEvents
  · simp [hmem] at h
  · rcases htop : log.topics with _ | ⟨t0, _ | ⟨t1, _ | ⟨t2, rest⟩⟩⟩ <;>
      simp [hmem, htop] at h ⊢
    by_cases hto : topicToAddress t2 = my
    · by_cases hcool :
        cooldownActive cooldown s.tokenLastBlock (pyLower log.address) log.blockNumber
      · simp [hto, hcool] at h
      · simp [hto, hcool] at h ⊢
        exact h.symm
    · simp [hto] at h

theorem wsProcessLog_emit_inv (cooldown : Int) (my : String)
    (s : DetectionState) (log : Log) (t : String)
    (h : (wsProcessLog cooldown my s log).2 = some t) :
    t = pyLower log.address
    ∧ (pyLower log.address, log.txHash) ∉ s.processedEvents
    ∧ (wsProcessLog cooldown my s log).1
        = recordDetection s (pyLower log.address) log.txHash log.blockNumber := by
  unfold wsProcessLog at h ⊢
  rcases htop : log.topics with _ | ⟨t0, _ | ⟨t1, _ | ⟨t2, rest⟩⟩⟩ <;>
    simp [htop] at h ⊢
  by_cases hto : pyLower (topicToAddress t2) = pyLower my
  · by_cases hmem : (pyLower log.address, log.txHash) ∈ s.processedEvents
    · simp [hto, hmem] at h
    · by_cases hcool :
        cooldownActive cooldown s.tokenLastBlock (pyLower log.address) log.blockNumber
      · simp [hto, hmem, hcool] at h
      · simp [hto, hmem, hcool] at h ⊢
        exact h.symm
  · simp [hto] at h

theorem scanProcessLog_none_of_cooldown (cooldown : Int) (my : String)
    (s : DetectionState) (log : Log)
    (h : cooldownActive cooldown s.tokenLastBlock (pyLower log.address)
          log.blockNumber = true) :
    (scanProcessLog cooldown my s log).2 = none := by
  unfold scanProcessLog
  by_cases hmem : (pyLower log.address, log.txHash) ∈ s.processedEvents
  · simp [hmem]
  · rcases htop : log.topics with _ | ⟨t0, _ | ⟨t1, _ | ⟨t2, rest⟩⟩⟩ <;>
      simp [hmem, htop]
    by_cases hto : topicToAddress t2 = my
    · simp [hto, h]
    · simp [hto]

theorem wsProcessLog_none_of_cooldown (cooldown : Int) (my : String)
    (s : DetectionState) (log : Log)
    (h : cooldownActive cooldown s.tokenLastBlock (pyLower log.address)
          log.blockNumber = true) :
    (wsProcessLog cooldown my s log).2 = none := by
  unfold wsProcessLog
  rcases htop : log.topics with _ | ⟨t0, _ | ⟨t1, _ | ⟨t2, rest⟩⟩⟩ <;> simp [htop]
  by_cases hto : pyLower (topicToAddress t2) = pyLower my
  · by_cases hmem : (pyLower log.address, log.txHash) ∈ s.processedEvents
    · simp [hto, hmem]
    · simp [hto, hmem, h]
  · simp [hto]

theorem scanProcessLog_emit_eq (cooldown : Int) (my : String)
    (s : DetectionState) (log : Log) (t0 t1 t2 : String) (rest : List String)
    (htop : log.topics = t0 :: t1 :: t2 :: rest)
    (hto : topicToAddress t2 = my)
    (hfresh : (pyLower log.address, log.txHash) ∉ s.processedEvents)
    (hcool : cooldownActive cooldown s.tokenLastBlock (pyLower log.address)
        log.blockNumber = false) :
    scanProcessLog cooldown my s log
      = (recordDetection s (pyLower log.address) log.txHash log.blockNumber,
         some (pyLower log.address)) := by
  unfold scanProcessLog
  rw [if_neg hfresh, htop]
  simp [hto, hcool]

theorem wsProcessLog_emit_eq (cooldown : Int) (my : String)
    (s : DetectionState) (log : Log) (t0 t1 t2 : String) (rest : List String)
    (htop : log.topics = t0 :: t1 :: t2 :: rest)
    (hto : topicToAddress t2 = my)
    (hfresh : (pyLower log.address, log.txHash) ∉ s.processedEvents)
    (hcool : cooldownActive cooldown s.tokenLastBlock (pyLower log.address)
        log.blockNumber = false) :
    wsProcessLog cooldown my s log
      = (recordDetection s (pyLower log.address) log.txHash log.blockNumber,
         some (pyLower log.address)) := by
  unfold wsProcessLog
  rw [htop]
  simp [congrArg pyLower hto, hfresh, hcool]

theorem processed_mono_scan (cooldown : Int) (my : String) (s : DetectionState)
    (log : Log) (p : String × String) (h : p ∈ s.processedEvents) :
    p ∈ (scanProcessLog cooldown my s log).1.processedEvents := by
  unfold scanProcessLog
  by_cases hmem : (pyLower log.address, log.txHash) ∈ s.processedEvents
  · simpa [hmem] using h
  · rcases htop : log.topics with _ | ⟨t0, _ | ⟨t1, _ | ⟨t2, rest⟩⟩⟩ <;>
      simp [hmem, htop]
    all_goals try exact h
    by_cases hto : topicToAddress t2 = my
    · by_cases hcool :
        cooldownActive cooldown s.tokenLastBlock (pyLower log.address) log.blockNumber
      · simp [hto, hcool]; exact h
      · simp [hto, hcool, recordDetection]
        exact Or.inr h
    · simp [hto]; exact h

theorem processed_mono_ws (cooldown : Int) (my : String) (s : DetectionState)
    (log : Log) (p : String × String) (h : p ∈ s.processedEvents) :
    p ∈ (wsProcessLog cooldown my s log).1.processedEvents := by
  unfold wsProcessLog
  rcases htop : log.topics with _ | ⟨t0, _ | ⟨t1, _ | ⟨t2, rest⟩⟩⟩ <;>
    simp [htop]
  all_goals try exact h
  by_cases hto : pyLower (topicToAddress t2) = pyLower my
  · by_cases hmem : (pyLower log.address, log.txHash) ∈ s.processedEvents
    · simp [hto, hmem]; exact h
    · by_cases hcool :
        cooldownActive cooldown s.tokenLastBlock (pyLower log.address) log.blockNumber
      · simp [hto, hmem, hcool]; exact h
      · simp [hto, hmem, hcool, recordDetection]
        exact Or.inr h
  · simp [hto]; exact h

/-- Generic redelivery lemma: any per-log step that preserves processed pairs
and refuses logs whose pair is already processed never emits, over a whole
run, a pair that was processed at the start. -/
theorem runPairs_not_mem
    (step : DetectionState → Log → DetectionState × Option String)
    (hmono : ∀ s log p, p ∈ s.processedEvents → p ∈ (step s log).1.processedEvents)
    (hemit : ∀ s log t, (step s log).2 = some t →
       (pyLower log.address, log.txHash) ∉ s.processedEvents) :
    ∀ (logs : List Log) (s : DetectionState) (p : String × String),
      p ∈ s.processedEvents → p ∉ (runPairs step s logs).2 := by
  intro logs
  induction logs with
  | nil => intro s p _ hmem; simp [runPairs] at hmem
  | cons log rest ih =>
    intro s p hp
    have htail := ih (step s log).1 p (hmono s log p hp)
    cases hstep : (step s log).2 with
    | none => simpa [runPairs, hstep] using htail
    | some t =>
      have hne : p ≠ (pyLower log.address, log.txHash) := by
        intro hc
        exact hemit s log t hstep (hc ▸ hp)
      simp only [runPairs, hstep, List.mem_cons, not_or]
      exact ⟨hne, htail⟩

/-! ## Claim theorems: event watcher -/

/-- C1: for every transfer log matched by the watcher, in polling and in
websocket mode, the `(tokenAddress, txHash)` pair is processed at most once:
a log whose pair is already in processedEvents yields no emission, and
feeding the same log twice yields exactly one emission (the second feed
emits nothing). -/
theorem C1_pair_processed_at_most_once (cooldown : Int) (my : String)
    (s : DetectionState) (log : Log) :
    ((pyLower log.address, log.txHash) ∈ s.processedEvents →
       (scanProcessLog cooldown my s log).2 = none
       ∧ (wsProcessLog cooldown my s log).2 = none)
    ∧ (∀ t, (scanProcessLog cooldown my s log).2 = some t →
       (scanProcessLog cooldown my (scanProcessLog cooldown my s log).1 log).2 = none)
    ∧ (∀ t, (wsProcessLog cooldown my s log).2 = some t →
       (wsProcessLog cooldown my (wsProcessLog cooldown my s log).1 log).2 = none) := by
  refine ⟨fun h => ⟨?_, ?_⟩, fun t h => ?_, fun t h => ?_⟩
  · rw [scanProcessLog_none_of_mem cooldown my s log h]
  · exact wsProcessLog_none_of_mem cooldown my s log h
  · have hinv := scanProcessLog_emit_inv cooldown my s log t h
    have hmem : (pyLower log.address, log.txHash)
        ∈ (scanProcessLog cooldown my s log).1.processedEvents := by
      rw [hinv.2.2]; exact List.mem_cons_self _ _
    rw [scanProcessLog_none_of_mem cooldown my _ log hmem]
  · have hinv := wsProcessLog_emit_inv cooldown my s log t h
    have hmem : (pyLower log.address, log.txHash)
        ∈ (wsProcessLog cooldown my s log).1.processedEvents := by
      rw [hinv.2.2]; exact List.mem_cons_self _ _
    exact wsProcessLog_none_of_mem cooldown my _ log hmem

/-- C1 witness: the first delivery of `log0` to a fresh watcher emits the
token; redelivering the identical log emits nothing. -/
theorem C1_witness :
    (scanProcessLog 3 my0 state0 log0).2
      = some "0xdead00000000000000000000000000000000beef"
    ∧ (scanProcessLog 3 my0 (scanProcessLog 3 my0 state0 log0).1 log0).2 = none :=
  ⟨by decide,
   (C1_pair_processed_at_most_once 3 my0 state0 log0).2.1
     "0xdead00000000000000000000000000000000beef" (by decide)⟩

/-- C2: a token already recorded in tokenLastBlock at block `lastBlock` is
suppressed in both modes when a new transfer arrives within the cooldown
window (`blockNumber - lastBlock < cooldown`), even with a fresh txHash;
and a matching fresh transfer at exactly `lastBlock + cooldown + 1` is
emitted in both modes. -/
theorem C2_cooldown_window (cooldown : Int) (my : String) (s : DetectionState)
    (log : Log) (lastBlock : Nat)
    (hlast : s.tokenLastBlock.lookup (pyLower log.address) = some lastBlock) :
    (((log.blockNumber : Int) - (lastBlock : Int) < cooldown) →
       (scanProcessLog cooldown my s log).2 = none
       ∧ (wsProcessLog cooldown my s log).2 = none)
    ∧ (∀ t0 t1 t2 rest, log.topics = t0 :: t1 :: t2 :: rest →
       topicToAddress t2 = my →
       (pyLower log.address, log.txHash) ∉ s.processedEvents →
       (log.blockNumber : Int) = (lastBlock : Int) + cooldown + 1 →
       (scanProcessLog cooldown my s log).2 = some (pyLower log.address)
       ∧ (wsProcessLog cooldown my s log).2 = some (pyLower log.address)) := by
  constructor
  · intro hwin
    have hcool : cooldownActive cooldown s.tokenLastBlock (pyLower log.address)
        log.blockNumber = true := by
      unfold cooldownActive
      rw [hlast]
      simpa using hwin
    exact ⟨scanProcessLog_none_of_cooldown cooldown my s log hcool,
           wsProcessLog_none_of_cooldown cooldown my s log hcool⟩
  · intro t0 t1 t2 rest htop hto hfresh hblock
    have hcool : cooldownActive cooldown s.tokenLastBlock (pyLower log.address)
        log.blockNumber = false := by
      unfold cooldownActive
      rw [hlast]
      simp only [decide_eq_false_iff_not, not_lt]
      rw [hblock]
      omega
    constructor
    · rw [scanProcessLog_emit_eq cooldown my s log t0 t1 t2 rest htop hto hfresh hcool]
    · rw [wsProcessLog_emit_eq cooldown my s log t0 t1 t2 rest htop hto hfresh hcool]

/-- C2 witness: with cooldown 3 and `tokA` last seen at block 100, the fresh
transfer at block 101 is suppressed in both modes and the fresh transfer at
block 104 is emitted in both modes. -/
theorem C2_witness :
    ((scanProcessLog 3 my0 sCool logCool101).2 = none
      ∧ (wsProcessLog 3 my0 sCool logCool101).2 = none)
    ∧ ((scanProcessLog 3 my0 sCool logCool104).2 = some (pyLower logCool104.address)
      ∧ (wsProcessLog 3 my0 sCool logCool104).2 = some (pyLower logCool104.address)) :=
  ⟨(C2_cooldown_window 3 my0 sCool logCool101 100 (by decide)).1 (by decide),
   (C2_cooldown_window 3 my0 sCool logCool104 100 (by decide)).2
     sig0 topicFrom0 topicTo0 [] rfl (by decide) (by decide) (by decide)⟩

/-- C6 counterexample: polling cycles never overlap and can leave gaps, so
the claimed "no gaps, with an explicit overlap equal to the cooldown window"
is false. With window MONITOR_INTERVAL = 10: a cycle entered with
lastBlockScanned = 100 at currentBlock = 120 queries from block 110, so the
blocks 101..109 lie in no cycle range (and every later cycle starts above
120), a gap; a cycle at currentBlock = 103 queries from 101, directly after
the previous cycle, not from 98 = 100 - DUPLICATE_CHECK_BLOCKS + 1 as an
overlap equal to the cooldown window (3) would require. -/
theorem C6_counterexample :
    scanStartBlock MONITOR_INTERVAL 100 120 = 110
    ∧ ¬ ((110 : Int) ≤ 105)
    ∧ (100 : Int) + 1 < 110
    ∧ scanStartBlock MONITOR_INTERVAL 100 103 = 101
    ∧ (101 : Int) ≠ 100 - DUPLICATE_CHECK_BLOCKS + 1 := by decide

/-- C6 amended: across polling cycles, lastBlockScanned is set to
currentBlock at the end of every successful cycle regardless of matches, and
(for nondecreasing chain heights) never decreases; each cycle queries
`[max(currentBlock - window, lastBlockScanned + 1), currentBlock]`; the
queried range always starts above lastBlockScanned, so no block is ever
re-scanned and consecutive ranges never overlap (in particular there is no
overlap equal to the cooldown window); the range starts exactly at
lastBlockScanned + 1 (no gap) when currentBlock - window is at most
lastBlockScanned + 1, and otherwise starts at currentBlock - window, leaving
the blocks in between permanently unscanned (a gap). -/
theorem C6_scan_range (cooldown : Int) (my : String) (s : DetectionState)
    (currentBlock : Nat) (logs : List Log) (numBlocks : Nat) :
    ((scan_recent_blocks cooldown my s currentBlock logs).1.lastBlockScanned
       = currentBlock)
    ∧ (s.lastBlockScanned ≤ currentBlock →
       s.lastBlockScanned
         ≤ (scan_recent_blocks cooldown my s currentBlock logs).1.lastBlockScanned)
    ∧ ((s.lastBlockScanned : Int) + 1
         ≤ scanStartBlock numBlocks s.lastBlockScanned currentBlock)
    ∧ ((currentBlock : Int) - numBlocks ≤ (s.lastBlockScanned : Int) + 1 →
       scanStartBlock numBlocks s.lastBlockScanned currentBlock
         = (s.lastBlockScanned : Int) + 1)
    ∧ ((s.lastBlockScanned : Int) + 1 < (currentBlock : Int) - numBlocks →
       scanStartBlock numBlocks s.lastBlockScanned currentBlock
         = (currentBlock : Int) - numBlocks) := by
  refine ⟨rfl, fun h => ?_, le_max_right _ _, fun h => max_eq_right h, fun h => ?_⟩
  · exact h
  · exact max_eq_left (le_of_lt h)

/-- C6 witness: a concrete in-sync cycle: from lastBlockScanned = 100 a
cycle at currentBlock = 103 advances lastBlockScanned monotonically and
queries from exactly block 101. -/
theorem C6_witness :
    (sCool.lastBlockScanned
       ≤ (scan_recent_blocks 3 my0 sCool 103 []).1.lastBlockScanned)
    ∧ scanStartBlock MONITOR_INTERVAL sCool.lastBlockScanned 103 = 101 :=
  ⟨(C6_scan_range 3 my0 sCool 103 [] MONITOR_INTERVAL).2.1 (by decide),
   (C6_scan_range 3 my0 sCool 103 [] MONITOR_INTERVAL).2.2.2.1 (by decide)⟩

/-- C10: in both modes every piece of detection state (knownTokens,
tokenLastBlock, processedEvents) is updated strictly before the handler is
invoked for the event: the post-cycle and post-message detection state is
independent of the handler outcomes, an emitted log already has its
`(tokenAddress, txHash)` pair in processedEvents of the updated state, and a
pair once present in processedEvents is never emitted again for the rest of
the run by either step function, so a failed emission is consumed, not
redelivered. -/
theorem C10_state_before_handler (cooldown : Int) (my : String)
    (s : DetectionState) :
    (∀ currentBlock logs handlerOk,
       (monitorPollingCycle cooldown my s currentBlock logs handlerOk).1
         = (scan_recent_blocks cooldown my s currentBlock logs).1)
    ∧ (∀ log handlerOk,
       (wsHandleLog cooldown my s log handlerOk).1 = (wsProcessLog cooldown my s log).1)
    ∧ (∀ log t, (scanProcessLog cooldown my s log).2 = some t →
       (pyLower log.address, log.txHash)
         ∈ (scanProcessLog cooldown my s log).1.processedEvents)
    ∧ (∀ log t, (wsProcessLog cooldown my s log).2 = some t →
       (pyLower log.address, log.txHash)
         ∈ (wsProcessLog cooldown my s log).1.processedEvents)
    ∧ (∀ p, p ∈ s.processedEvents → ∀ logs,
       p ∉ (runPairs (scanProcessLog cooldown my) s logs).2
       ∧ p ∉ (runPairs (wsProcessLog cooldown my) s logs).2) := by
  refine ⟨fun currentBlock logs handlerOk => rfl, fun log handlerOk => ?_,
    fun log t h => ?_, fun log t h => ?_, fun p hp logs => ⟨?_, ?_⟩⟩
  · cases h : (wsProcessLog cooldown my s log).2 <;> simp [wsHandleLog, h]
  · rw [(scanProcessLog_emit_inv cooldown my s log t h).2.2]
    exact List.mem_cons_self _ _
  · rw [(wsProcessLog_emit_inv cooldown my s log t h).2.2]
    exact List.mem_cons_self _ _
  · exact runPairs_not_mem (scanProcessLog cooldown my)
      (fun s' log' p' h' => processed_mono_scan cooldown my s' log' p' h')
      (fun s' log' t' h' => ((scanProcessLog_emit_inv cooldown my s' log' t' h').2.1))
      logs s p hp
  · exact runPairs_not_mem (wsProcessLog cooldown my)
      (fun s' log' p' h' => processed_mono_ws cooldown my s' log' p' h')
      (fun s' log' t' h' => ((wsProcessLog_emit_inv cooldown my s' log' t' h').2.1))
      logs s p hp

/-- C10 witness: the pair already processed for `tokA` at block 100 is not
re-emitted when the identical log is replayed through a polling run, and a
websocket message with that log leaves the same state whatever the handler
outcome. -/
theorem C10_witness :
    (tokA, "0xhash0") ∉ (runPairs (scanProcessLog 3 my0) sCool [logReplay0]).2
    ∧ (wsHandleLog 3 my0 sCool logReplay0 false).1
        = (wsProcessLog 3 my0 sCool logReplay0).1 :=
  ⟨((C10_state_before_handler 3 my0 sCool).2.2.2.2 (tokA, "0xhash0")
      (by decide) [logReplay0]).1,
   (C10_state_before_handler 3 my0 sCool).2.1 logReplay0 false⟩

/-! ## Claim theorems: swap executor -/

/-- An execution in which the 0x provider has nothing: null quote and null
swap data. -/
def failEnv : SwapEnv :=
  { quote := none, swapData := none, allowance := 0, approveResult := none
    sendOk := true, txHash := "0xabc", receiptStatus := none }

/-- A successful environment in which the approval step fails:
approve_token could not send or confirm the approval (it returned None),
while everything else succeeds. -/
def approvalFailEnv : SwapEnv :=
  { quote := some 500, swapData := some ⟨"0xspender", "0xrouter"⟩, allowance := 0
    approveResult := none, sendOk := true, txHash := "0xswaphash"
    receiptStatus := some 1 }

/-- A fully successful environment with an approval needed and succeeding. -/
def okEnv : SwapEnv :=
  { quote := some 500, swapData := some ⟨"0xspender", "0xrouter"⟩, allowance := 0
    approveResult := some "0xapprovehash", sendOk := true, txHash := "0xswaphash"
    receiptStatus := some 1 }

/-- C3 counterexample: in an execution where the provider returns null for
both quote and swap data, execute_swap issues exactly one quote request, to
the 0x provider, and fails with no request to any other provider — in
particular 1inch, the first entry of AGGREGATOR_PRIORITY, is never
attempted, so no "next provider in priority order" fallback happens. -/
theorem C3_counterexample :
    execute_swap failEnv "0xtokenin" "0xweth" 1000 = ([SwapStep.quoteRequest "0x"], none)
    ∧ SwapStep.quoteRequest "1inch" ∉ (execute_swap failEnv "0xtokenin" "0xweth" 1000).1
    ∧ SwapStep.swapDataRequest "1inch" ∉ (execute_swap failEnv "0xtokenin" "0xweth" 1000).1
    ∧ SwapStep.quoteRequest "uniswap" ∉ (execute_swap failEnv "0xtokenin" "0xweth" 1000).1
    ∧ SwapStep.quoteRequest "okx" ∉ (execute_swap failEnv "0xtokenin" "0xweth" 1000).1
    ∧ AGGREGATOR_PRIORITY = ["1inch", "0x", "uniswap", "okx"] := by decide

/-- Trace shape of execute_swap when quote and swap data are both present:
the step list is fixed up to the conditional approval, whatever the
send/receipt outcome. -/
theorem execute_swap_trace (env : SwapEnv) (tin tout : String) (amt : Int)
    (q : Int) (sd : SwapData)
    (hq : env.quote = some q) (hsd : env.swapData = some sd) :
    (execute_swap env tin tout amt).1
      = [SwapStep.quoteRequest "0x", SwapStep.swapDataRequest "0x",
         SwapStep.allowanceCheck tin sd.allowanceTarget]
        ++ (if env.allowance < amt then
              [SwapStep.approveSubmit tin sd.allowanceTarget (amt * 2)]
            else [])
        ++ [SwapStep.signSwapTx, SwapStep.submitSwapTx] := by
  unfold execute_swap
  rw [hq, hsd]
  cases hsend : env.sendOk
  · simp [hsend]
  · rcases hst : env.receiptStatus with _ | st
    · simp [hsend, hst]
    · by_cases h1 : st = 1 <;> simp [hsend, hst, h1]

/-- C3 amended: execute_swap consults the 0x provider only — every quote or
swap-data request in any execution is addressed to "0x" — and a null quote
(or null swap data) fails the attempt immediately, with no request to any
further provider; the configured AGGREGATOR_PRIORITY order is never
consulted. -/
theorem C3_single_provider (env : SwapEnv) (tin tout : String) (amt : Int) :
    (∀ p, SwapStep.quoteRequest p ∈ (execute_swap env tin tout amt).1 → p = "0x")
    ∧ (∀ p, SwapStep.swapDataRequest p ∈ (execute_swap env tin tout amt).1 → p = "0x")
    ∧ (env.quote = none →
       execute_swap env tin tout amt = ([SwapStep.quoteRequest "0x"], none))
    ∧ (env.quote ≠ none → env.swapData = none →
       execute_swap env tin tout amt
         = ([SwapStep.quoteRequest "0x", SwapStep.swapDataRequest "0x"], none)) := by
  cases hq : env.quote with
  | none =>
    have h0 : execute_swap env tin tout amt = ([SwapStep.quoteRequest "0x"], none) := by
      unfold execute_swap; rw [hq]
    refine ⟨fun p hp => ?_, fun p hp => ?_, fun _ => h0, fun hne => absurd rfl hne⟩
    · rw [h0] at hp; simp at hp; exact hp
    · rw [h0] at hp; simp at hp
  | some q =>
    cases hsd : env.swapData with
    | none =>
      have h0 : execute_swap env tin tout amt
          = ([SwapStep.quoteRequest "0x", SwapStep.swapDataRequest "0x"], none) := by
        unfold execute_swap; rw [hq, hsd]
      refine ⟨fun p hp => ?_, fun p hp => ?_, fun hc => ?_, fun _ _ => h0⟩
      · rw [h0] at hp; simp at hp; exact hp
      · rw [h0] at hp; simp at hp; exact hp
      · exact Option.noConfusion hc
    | some sd =>
      have htr := execute_swap_trace env tin tout amt q sd hq hsd
      refine ⟨fun p hp => ?_, fun p hp => ?_, fun hc => ?_, fun _ hc => ?_⟩
      · rw [htr] at hp
        by_cases hal : env.allowance < amt <;> simp [hal] at hp <;> exact hp
      · rw [htr] at hp
        by_cases hal : env.allowance < amt <;> simp [hal] at hp <;> exact hp
      · exact Option.noConfusion hc
      · exact Option.noConfusion hc

/-- C3 witness: in the double-null execution the amended description is
exact: the attempt fails right after the single 0x quote request. -/
theorem C3_witness :
    execute_swap failEnv "0xa" "0xb" 5 = ([SwapStep.quoteRequest "0x"], none) :=
  (C3_single_provider failEnv "0xa" "0xb" 5).2.2.1 rfl

/-- C4: once the swap payload is obtained, execute_swap reads the allowance
toward the payload allowanceTarget; when allowance < amount an approval for
2x the amount is submitted before the swap transaction is signed, and when
allowance >= amount no approval is issued and the flow proceeds directly to
signing — the full ordered step trace in each case. -/
theorem C4_allowance_logic (env : SwapEnv) (tin tout : String) (amt : Int)
    (q : Int) (sd : SwapData)
    (hq : env.quote = some q) (hsd : env.swapData = some sd) :
    (env.allowance < amt →
       (execute_swap env tin tout amt).1
         = [SwapStep.quoteRequest "0x", SwapStep.swapDataRequest "0x",
            SwapStep.allowanceCheck tin sd.allowanceTarget,
            SwapStep.approveSubmit tin sd.allowanceTarget (amt * 2),
            SwapStep.signSwapTx, SwapStep.submitSwapTx])
    ∧ (amt ≤ env.allowance →
       (execute_swap env tin tout amt).1
         = [SwapStep.quoteRequest "0x", SwapStep.swapDataRequest "0x",
            SwapStep.allowanceCheck tin sd.allowanceTarget,
            SwapStep.signSwapTx, SwapStep.submitSwapTx]) := by
  unfold execute_swap
  rw [hq, hsd]
  constructor
  · intro hal
    cases hsend : env.sendOk <;>
      rcases hst : env.receiptStatus with _ | st <;>
      simp [hal, apply_ite Prod.fst]
  · intro hal
    have hal' : ¬ env.allowance < amt := not_lt.mpr hal
    cases hsend : env.sendOk <;>
      rcases hst : env.receiptStatus with _ | st <;>
      simp [hal', apply_ite Prod.fst]

/-- C4 witness: with allowance 0 and amount 10, the approval for 20 appears
between the allowance check and the signing step. -/
theorem C4_witness :
    (execute_swap okEnv "0xtokenin" "0xweth" 10).1
      = [SwapStep.quoteRequest "0x", SwapStep.swapDataRequest "0x",
         SwapStep.allowanceCheck "0xtokenin" "0xspender",
         SwapStep.approveSubmit "0xtokenin" "0xspender" 20,
         SwapStep.signSwapTx, SwapStep.submitSwapTx] :=
  (C4_allowance_logic okEnv "0xtokenin" "0xweth" 10 500 ⟨"0xspender", "0xrouter"⟩
    rfl rfl).1 (by decide)

/-- C5 counterexample: an execution in which the approval step fails
(approve_token returned None because the approve transaction could not be
sent or confirmed) does not terminate: the swap transaction is still signed
and submitted, and the run even returns the swap hash — execute_swap never
inspects the approval result (swap_executor.py line 250). -/
theorem C5_counterexample :
    approvalFailEnv.approveResult = none
    ∧ approvalFailEnv.allowance < 1000
    ∧ SwapStep.signSwapTx ∈ (execute_swap approvalFailEnv "0xtin" "0xtout" 1000).1
    ∧ SwapStep.submitSwapTx ∈ (execute_swap approvalFailEnv "0xtin" "0xtout" 1000).1
    ∧ (execute_swap approvalFailEnv "0xtin" "0xtout" 1000).2 = some "0xswaphash" := by
  decide

/-- C5 amended: the state machine is linear and never retries a step within
one attempt (the step trace has no duplicates); a null quote or a null swap
payload terminates the attempt as failed before any transaction is signed or
submitted; but a failure of the approval step does not terminate the
attempt: the outcome of approve_token is ignored, and the trace and result
are the same whatever the approval outcome was, so the swap is still signed
and submitted after a failed approval. -/
theorem C5_linear_no_approval_abort (env : SwapEnv) (tin tout : String)
    (amt : Int) :
    (env.quote = none →
       (execute_swap env tin tout amt).2 = none
       ∧ SwapStep.signSwapTx ∉ (execute_swap env tin tout amt).1
       ∧ SwapStep.submitSwapTx ∉ (execute_swap env tin tout amt).1)
    ∧ (env.swapData = none →
       (execute_swap env tin tout amt).2 = none
       ∧ SwapStep.signSwapTx ∉ (execute_swap env tin tout amt).1
       ∧ SwapStep.submitSwapTx ∉ (execute_swap env tin tout amt).1)
    ∧ (execute_swap env tin tout amt).1.Nodup
    ∧ (∀ r, execute_swap { env with approveResult := r } tin tout amt
         = execute_swap env tin tout amt) := by
  refine ⟨fun hq => ?_, fun hsd => ?_, ?_, fun r => ?_⟩
  · simp [execute_swap, hq]
  · cases hq : env.quote with
    | none => simp [execute_swap, hq]
    | some q => simp [execute_swap, hq, hsd]
  · unfold execute_swap
    cases hq : env.quote with
    | none => simp
    | some q =>
      cases hsd : env.swapData with
      | none => simp
      | some sd =>
        by_cases hal : env.allowance < amt <;>
          cases hsend : env.sendOk <;>
          rcases hst : env.receiptStatus with _ | st <;>
          simp [hal, apply_ite Prod.fst, List.nodup_cons]
  · unfold execute_swap
    rfl

/-- C5 witness: with a null quote the attempt fails with nothing signed or
submitted. -/
theorem C5_witness :
    (execute_swap failEnv "0xa" "0xb" 5).2 = none
    ∧ SwapStep.signSwapTx ∉ (execute_swap failEnv "0xa" "0xb" 5).1
    ∧ SwapStep.submitSwapTx ∉ (execute_swap failEnv "0xa" "0xb" 5).1 :=
  (C5_linear_no_approval_abort failEnv "0xa" "0xb" 5).1 rfl

/-! ## Claim theorems: liquidity gate and sniper variant -/

theorem maxByLiquidity_cons (p x : Pair) (xs : List Pair) :
    maxByLiquidity p (x :: xs)
      = maxByLiquidity (if p.liquidityUsd < x.liquidityUsd then x else p) xs := rfl

theorem maxByLiquidity_mem (ps : List Pair) : ∀ p : Pair,
    maxByLiquidity p ps ∈ p :: ps := by
  induction ps with
  | nil => intro p; simp [maxByLiquidity]
  | cons x xs ih =>
    intro p
    rw [maxByLiquidity_cons]
    by_cases hc : p.liquidityUsd < x.liquidityUsd
    · rw [if_pos hc]
      rcases List.mem_cons.mp (ih x) with h1 | h1
      · rw [h1]; exact List.mem_cons.mpr (Or.inr (List.mem_cons_self _ _))
      · exact List.mem_cons.mpr (Or.inr (List.mem_cons_of_mem _ h1))
    · rw [if_neg hc]
      rcases List.mem_cons.mp (ih p) with h1 | h1
      · rw [h1]; exact List.mem_cons_self _ _
      · exact List.mem_cons.mpr (Or.inr (List.mem_cons_of_mem _ h1))

theorem maxByLiquidity_start_le (ps : List Pair) : ∀ p : Pair,
    p.liquidityUsd ≤ (maxByLiquidity p ps).liquidityUsd := by
  induction ps with
  | nil => intro p; simp [maxByLiquidity]
  | cons x xs ih =>
    intro p
    rw [maxByLiquidity_cons]
    by_cases hc : p.liquidityUsd < x.liquidityUsd
    · rw [if_pos hc]
      exact le_of_lt (lt_of_lt_of_le hc (ih x))
    · rw [if_neg hc]
      exact ih p

theorem maxByLiquidity_le (ps : List Pair) : ∀ p q : Pair, q ∈ p :: ps →
    q.liquidityUsd ≤ (maxByLiquidity p ps).liquidityUsd := by
  induction ps with
  | nil =>
    intro p q hq
    rcases List.mem_cons.mp hq with h | h
    · rw [h]; simp [maxByLiquidity]
    · simp at h
  | cons x xs ih =>
    intro p q hq
    rw [maxByLiquidity_cons]
    rcases List.mem_cons.mp hq with h | h
    · subst h
      by_cases hc : q.liquidityUsd < x.liquidityUsd
      · rw [if_pos hc]
        exact le_of_lt (lt_of_lt_of_le hc (maxByLiquidity_start_le xs x))
      · rw [if_neg hc]
        exact maxByLiquidity_start_le xs q
    · rcases List.mem_cons.mp h with h1 | h1
      · subst h1
        by_cases hc : p.liquidityUsd < q.liquidityUsd
        · rw [if_pos hc]
          exact maxByLiquidity_start_le xs q
        · rw [if_neg hc]
          exact le_trans (not_lt.mp hc) (maxByLiquidity_start_le xs p)
      · exact ih _ q (List.mem_cons_of_mem _ h1)

/-- C8: is_tradeable is the threshold test of the snapshot liquidity against
the configured minimum: it is monotone in liquidityUsd for every fixed
snapshot shape (once true, it never flips back as liquidityUsd grows), on
every snapshot shaped as the checker produces them
(has_liquidity = liquidityUsd > 0) it equals the pure comparison
`MIN_LIQUIDITY <= liquidityUsd`, and concretely with minimum 3000 a snapshot
with liquidityUsd 2000 is not tradeable while 3500 is. -/
theorem C8_is_tradeable_threshold :
    (∀ (m : Rat) (h : Bool) (u₁ u₂ : Rat) (bp dx : Option String) (pu : Option Rat),
       u₁ ≤ u₂ → is_tradeable m ⟨h, u₁, bp, dx, pu⟩ = true →
       is_tradeable m ⟨h, u₂, bp, dx, pu⟩ = true)
    ∧ (∀ (u : Rat) (bp dx : Option String) (pu : Option Rat),
       is_tradeable MIN_LIQUIDITY ⟨decide (0 < u), u, bp, dx, pu⟩
         = decide (MIN_LIQUIDITY ≤ u))
    ∧ is_tradeable MIN_LIQUIDITY ⟨decide ((0:Rat) < 2000), 2000, none, none, none⟩
        = false
    ∧ is_tradeable MIN_LIQUIDITY ⟨decide ((0:Rat) < 3500), 3500, none, none, none⟩
        = true := by
  refine ⟨fun m h u₁ u₂ bp dx pu hle htr => ?_, fun u bp dx pu => ?_,
    by decide, by decide⟩
  · simp only [is_tradeable, Bool.and_eq_true, decide_eq_true_eq] at htr ⊢
    exact ⟨htr.1, le_trans htr.2 hle⟩
  · by_cases hm : MIN_LIQUIDITY ≤ u
    · have hu : (0 : Rat) < u := lt_of_lt_of_le (by norm_num [MIN_LIQUIDITY]) hm
      simp [is_tradeable, hm, hu]
    · simp [is_tradeable, hm]

/-- C8 witness: monotonicity applied at the threshold: a tradeable snapshot
at 3500 stays tradeable at 4000. -/
theorem C8_witness :
    is_tradeable MIN_LIQUIDITY ⟨true, 4000, none, none, none⟩ = true :=
  (C8_is_tradeable_threshold).1 MIN_LIQUIDITY true 3500 4000 none none none
    (by decide) (by decide)

/-- C9: the liquidity check returns the zero snapshot with no network call
for the zero address and for every malformed address (wrong 0x marker or
length other than 42); every failure path of the call itself (timeout or
exception = no response, non-200 status, empty pair list) also yields the
zero snapshot; and on a 200 response with a nonempty pair list the selected
pair maximizes USD liquidity among all returned pairs, and the snapshot is
built from that pair. -/
theorem C9_liquidity_check_guardrails :
    (∀ resp, check_liquidity_dexscreener
        "0x0000000000000000000000000000000000000000" resp = (false, zeroSnapshot))
    ∧ (∀ addr resp, (pyStartsWith addr "0x" = false ∨ addr.length ≠ 42) →
       check_liquidity_dexscreener addr resp = (false, zeroSnapshot))
    ∧ (∀ addr, (check_liquidity_dexscreener addr none).2 = zeroSnapshot)
    ∧ (∀ addr status pairs, status ≠ 200 →
       (check_liquidity_dexscreener addr (some (status, pairs))).2 = zeroSnapshot)
    ∧ (∀ addr status, (check_liquidity_dexscreener addr (some (status, []))).2
         = zeroSnapshot)
    ∧ (∀ addr p ps,
       pyLower addr ≠ "0x0000000000000000000000000000000000000000" →
       pyStartsWith addr "0x" = true → addr.length = 42 →
       (check_liquidity_dexscreener addr (some (200, p :: ps))).2
         = { has_liquidity := decide (0 < (maxByLiquidity p ps).liquidityUsd)
             liquidity_usd := (maxByLiquidity p ps).liquidityUsd
             best_pair := some (maxByLiquidity p ps).pairAddress
             dex := some (maxByLiquidity p ps).dexId
             price_usd := some (maxByLiquidity p ps).priceUsd }
       ∧ maxByLiquidity p ps ∈ p :: ps
       ∧ (∀ q ∈ p :: ps, q.liquidityUsd ≤ (maxByLiquidity p ps).liquidityUsd)) := by
  refine ⟨fun resp => ?_, fun addr resp hbad => ?_, fun addr => ?_,
    fun addr status pairs hst => ?_, fun addr status => ?_,
    fun addr p ps hzero hpre hlen => ?_⟩
  · unfold check_liquidity_dexscreener
    rw [if_pos (by decide)]
  · unfold check_liquidity_dexscreener
    by_cases hz : pyLower addr = "0x0000000000000000000000000000000000000000"
    · rw [if_pos hz]
    · rw [if_neg hz, if_pos ?_]
      rcases hbad with h | h
      · exact Or.inl (by simp [h])
      · exact Or.inr h
  · unfold check_liquidity_dexscreener
    by_cases hz : pyLower addr = "0x0000000000000000000000000000000000000000"
    · rw [if_pos hz]
    · rw [if_neg hz]
      by_cases hbad : ¬ pyStartsWith addr "0x" = true ∨ addr.length ≠ 42
      · rw [if_pos hbad]
      · rw [if_neg hbad]
  · unfold check_liquidity_dexscreener
    by_cases hz : pyLower addr = "0x0000000000000000000000000000000000000000"
    · rw [if_pos hz]
    · rw [if_neg hz]
      by_cases hbad : ¬ pyStartsWith addr "0x" = true ∨ addr.length ≠ 42
      · rw [if_pos hbad]
      · rw [if_neg hbad]
        simp [hst]
  · unfold check_liquidity_dexscreener
    by_cases hz : pyLower addr = "0x0000000000000000000000000000000000000000"
    · rw [if_pos hz]
    · rw [if_neg hz]
      by_cases hbad : ¬ pyStartsWith addr "0x" = true ∨ addr.length ≠ 42
      · rw [if_pos hbad]
      · rw [if_neg hbad]
        by_cases h200 : status = 200 <;> simp [h200]
  · refine ⟨?_, maxByLiquidity_mem ps p, maxByLiquidity_le ps p⟩
    unfold check_liquidity_dexscreener
    rw [if_neg hzero, if_neg (by simp [hpre, hlen])]
    simp

/-- C9 witness: a non-200 response yields the zero-liquidity snapshot. -/
theorem C9_witness :
    (check_liquidity_dexscreener my0 (some (404, []))).2 = zeroSnapshot :=
  (C9_liquidity_check_guardrails).2.2.2.1 my0 404 [] (by decide)

/-- C7: in the sniper variant, the first check that finds tradeable
liquidity records it as initial_liquidity (and marks detection); with
growth threshold at most 1.0 that first check proceeds immediately to the
sell section, while a larger threshold waits; and on every subsequent check
the growth ratio current/initial is computed and the sell section is
reached exactly when the ratio meets the threshold. -/
theorem C7_growth_gate (minLiq threshold : Rat) (st : SniperState)
    (balance : Rat) (liq : LiquiditySnapshot)
    (hbal : 0 < balance) (htr : is_tradeable minLiq liq = true) :
    (st.has_liquidity_detected = false →
       ((check_and_sell minLiq threshold st balance liq).1.initial_liquidity
          = liq.liquidity_usd
        ∧ (check_and_sell minLiq threshold st balance liq).1.has_liquidity_detected
          = true)
       ∧ (threshold ≤ 1 →
          (check_and_sell minLiq threshold st balance liq).2 = CheckOutcome.sell 1)
       ∧ (1 < threshold →
          (check_and_sell minLiq threshold st balance liq).2
            = CheckOutcome.waitForGrowth))
    ∧ (st.has_liquidity_detected = true → 0 < st.initial_liquidity →
       ((check_and_sell minLiq threshold st balance liq).2
          = CheckOutcome.sell (liq.liquidity_usd / st.initial_liquidity)
        ↔ threshold ≤ liq.liquidity_usd / st.initial_liquidity)) := by
  have hbal' : ¬ balance ≤ 0 := not_le.mpr hbal
  constructor
  · intro hdet
    unfold check_and_sell
    rw [if_neg hbal', if_neg (by simp [htr]), if_pos (by simp [hdet])]
    refine ⟨?_, fun hth => ?_, fun hth => ?_⟩
    · by_cases hgt : 1 < threshold <;> simp [hgt]
    · rw [if_neg (not_lt.mpr hth)]
    · rw [if_pos hth]
  · intro hdet hinit
    unfold check_and_sell
    rw [if_neg hbal', if_neg (by simp [htr]), if_neg (by simp [hdet]),
      if_pos hinit]
    by_cases hlt : liq.liquidity_usd / st.initial_liquidity < threshold
    · rw [if_pos hlt]
      constructor
      · intro hc; exact absurd hc (by simp)
      · intro hc; exact absurd hlt (not_lt.mpr hc)
    · rw [if_neg hlt]
      exact ⟨fun _ => not_lt.mp hlt, fun _ => rfl⟩

/-- C7 witness: with threshold 3/2, a state first detected at liquidity 1000
and a later check at 1600, reaching the sell section is equivalent to the
growth ratio 1600/1000 meeting the threshold. -/
theorem C7_witness :
    ((check_and_sell MIN_LIQUIDITY_USD (3/2) ⟨true, 1000, 1000, 1000, 1⟩ 5
        ⟨true, 1600, none, none, none⟩).2
      = CheckOutcome.sell ((1600 : Rat) / 1000)
    ↔ (3/2 : Rat) ≤ (1600 : Rat) / 1000) :=
  (C7_growth_gate MIN_LIQUIDITY_USD (3/2) ⟨true, 1000, 1000, 1000, 1⟩ 5
    ⟨true, 1600, none, none, none⟩ (by decide) (by decide)).2 rfl (by decide)

end AutoSwapBot
